import Mathlib

/-!
Shallow embedding of the Axter Telegram bot (src/main.py).

Modelling conventions:
* The bot's mutable attributes `self.state` (the JSON dict) and `self.offset`
  are combined into one `BotState` record.  The source keeps `self.offset`
  separate from `state['offset']` and syncs them inside `save()`; nothing ever
  reads `state['offset']` between `__init__` and `save`, so a single `offset`
  field is observationally faithful.
* Python dicts of user records become insertion-ordered association lists
  (`List (String × UserRecord)`); `users[k]` lookup, `users[k] = v` assignment
  and in-place field mutation are `lookupUser`, `putUser` and `updateUser`.
* Network and desktop side effects are recorded in an ordered trace of
  `Effect` values; each handler returns `(new state, trace, error?)` where the
  error component models an uncaught Python exception (KeyError on a missing
  dict key, ValueError on a bad `split` unpacking, IndexError on `[-1]` of an
  empty list).  Effects emitted before the exception stay in the trace.
* Inbound payloads are decoded once at the transport boundary into closed
  tagged unions (a Telegram message carries exactly one of `text`, `photo`,
  `document`, or something else), mirroring the platform's data model that
  the dict-key tests `'text' in message` / `'photo' in message` probe.
* The `getFile` API response is an oracle `gf : String → String` mapping a
  file id to the server-side `file_path` field of the response.
-/

inductive Err where
  | keyError
  | valueError
  | indexError
  deriving DecidableEq, Repr

/-- `message['from']`: the sender object.  `id` is kept as the string the code
produces with `str(message['from']['id'])`. -/
structure FromUser where
  id : String
  username : Option String
  first_name : Option String
  last_name : Option String
  deriving DecidableEq, Repr

/-- one entry of `message['photo']` (a size variant of the photo). -/
structure PhotoSize where
  file_id : String
  deriving DecidableEq, Repr

/-- `message['document']`. -/
structure Document where
  file_id : String
  mime_type : String
  deriving DecidableEq, Repr

/-- the content part of a Telegram message: exactly one of the dict keys
`text`, `photo`, `document`, or some other payload the bot ignores. -/
inductive MsgContent where
  | text (t : String)
  | photo (sizes : List PhotoSize)
  | document (d : Document)
  | other
  deriving DecidableEq, Repr

/-- `message['message']` as read by `handle_message`. -/
structure Message where
  sender : FromUser
  content : MsgContent
  deriving DecidableEq, Repr

/-- `callback['message']`: the message the inline keyboard was attached to. -/
structure CbMessage where
  chat_id : String
  message_id : Int
  text : String
  deriving DecidableEq, Repr

/-- `callback['callback_query']` as read by `handle_callback`. -/
structure Callback where
  data : String
  message : CbMessage
  deriving DecidableEq, Repr

/-- payload of one `getUpdates` entry. -/
inductive UpdatePayload where
  | message (m : Message)
  | callbackQuery (cb : Callback)
  | other
  deriving DecidableEq, Repr

/-- one entry of the `getUpdates` result: `update_id` plus the payload. -/
structure Update where
  update_id : Int
  payload : UpdatePayload
  deriving DecidableEq, Repr

/-- one value of `state['users']`: the dict created at lines 180-184 /
215-219 of main.py.  The `state` key is absent at creation and only ever
added (set to `''`) by the desktop callback, hence an `Option`. -/
structure UserRecord where
  username : String
  file_id : String
  allowed : Bool
  state : Option String
  deriving DecidableEq, Repr

/-- the durable bot state: `state['owner']`, the live `self.offset`, and
`state['users']` as an insertion-ordered association list. -/
structure BotState where
  owner : String
  offset : Int
  users : List (String × UserRecord)
  deriving DecidableEq, Repr

/-- an inline keyboard button: display label and `callback_data`. -/
structure Button where
  label : String
  callback_data : String
  deriving DecidableEq, Repr

/-- observable side effects, in program order. -/
inductive Effect where
  /-- `request('getUpdates', offset=self.offset)` with the offset sent. -/
  | getUpdates (offset : Int)
  /-- `send_message(destination, text)`. -/
  | sendMessage (chat : String) (text : String)
  /-- `request('sendMessage', method='post', ...)` with an inline keyboard. -/
  | sendMarkup (chat : String) (text : String) (kb : List (List Button))
  /-- `request('setMyCommands', ...)` scoped to one chat;
  commands as (command, description) pairs. -/
  | setMyCommands (chat : String) (commands : List (String × String))
  /-- `request('editMessageText', ...)` re-sending the text with
  `reply_markup=""` (keyboard removed). -/
  | editMessageText (chat : String) (message_id : Int) (text : String)
  /-- `request('getFile', file_id=...)`. -/
  | getFile (file_id : String)
  /-- `urlretrieve(url, destination)`. -/
  | download (url : String) (dest : String)
  /-- `set_desktop(file_path, monitor)`: the QDBus wallpaper call. -/
  | setDesktop (path : String) (monitor : String)
  /-- `send_photo(destination, filepath, text)`. -/
  | sendPhoto (chat : String) (path : String) (caption : String)
  /-- `save()`: `state['offset'] = self.offset; json.dump(state, ...)`;
  carries the state that gets written to `state.json`. -/
  | save (st : BotState)
  /-- `exit()` inside `shutdown()`. -/
  | exit
  deriving DecidableEq, Repr

/-- `users[k]` lookup (`k in users` is `(lookupUser users k).isSome`). -/
def lookupUser : List (String × UserRecord) → String → Option UserRecord
  | [], _ => none
  | (k, r) :: rest, k' => if k = k' then some r else lookupUser rest k'

/-- `users[k] = v`: overwrite in place if the key exists, else append
(Python dict assignment preserves insertion order). -/
def putUser : List (String × UserRecord) → String → UserRecord → List (String × UserRecord)
  | [], k, v => [(k, v)]
  | (k0, r) :: rest, k, v =>
    if k0 = k then (k0, v) :: rest else (k0, r) :: putUser rest k v

/-- `users[k]['field'] = ...`: in-place field mutation; `none` models the
KeyError when `k` is absent. -/
def updateUser : List (String × UserRecord) → String → (UserRecord → UserRecord) →
    Option (List (String × UserRecord))
  | [], _, _ => none
  | (k0, r) :: rest, k, f =>
    if k0 = k then some ((k0, f r) :: rest)
    else match updateUser rest k f with
      | none => none
      | some rest' => some ((k0, r) :: rest')

/-- `self.accepted_types` (main.py line 60). -/
def accepted_types : List String := ["image/png", "image/jpeg", "image/jxl"]

/-- worker for `pySplit`, walking the character list. -/
def pySplitAux (sep : Char) : List Char → List Char → List String
  | [], acc => [String.mk acc.reverse]
  | c :: cs, acc =>
    if c = sep then String.mk acc.reverse :: pySplitAux sep cs []
    else pySplitAux sep cs (c :: acc)

/-- Python's `s.split(sep)` for a one-character separator (as used with
`data.split(':')`): splits at every occurrence, keeping empty pieces. -/
def pySplit (s : String) (sep : Char) : List String := pySplitAux sep s.data []

/-- Python's `s.startswith(p)`. -/
def pyStartsWith (s p : String) : Bool := p.data.isPrefixOf s.data

/-- Python renders `None` as the string "None" inside an f-string. -/
def pyShow : Option String → String
  | none => "None"
  | some s => s

/-- result type of every handler: new state, effect trace, uncaught
exception if any. -/
abbrev HRes : Type := BotState × List Effect × Option Err

/-- the owner command set registered on the owner's first message
(main.py lines 186-207). -/
def ownerCommands : List (String × String) :=
  [("/ping", "pong"), ("/shutdown", "shuts down the bot"), ("/reset", "resets users")]

/-- the command set registered for a freshly confirmed user
(main.py lines 379-396). -/
def confirmedCommands : List (String × String) :=
  [("/ping", "pong"), ("/desktop", "sets desktop background")]

/-- the owner-approval inline keyboard for a new user (lines 234-247). -/
def newUserKeyboard (sender : String) : List (List Button) :=
  [[{ label := "allow", callback_data := "new_user:allow:" ++ sender },
    { label := "ban", callback_data := "new_user:ban:" ++ sender }]]

/-- the monitor-selection inline keyboard (lines 331-348). -/
def monitorKeyboard (sender : String) : List (List Button) :=
  [[{ label := "Left", callback_data := "desktop:1:" ++ sender },
    { label := "Primary", callback_data := "desktop:0:" ++ sender },
    { label := "Right", callback_data := "desktop:2:" ++ sender }]]

/-- the text of the owner notification about a new user (lines 230-233). -/
def newUserText (sender : String) (f : FromUser) : String :=
  "New user needing confirmation\nID: " ++ sender ++
  "\nFirst name: " ++ pyShow f.first_name ++
  "\nLast name: " ++ pyShow f.last_name ++
  "\nUsername: @" ++ pyShow f.username

/-- the prompt sent before the monitor keyboard (line 330). -/
def monitorPrompt : String := "Great!\nNow, which monitor should it apply to?"

/-- mimetype rejection text (lines 312-315): note `', '.join` is appended
directly after the colon. -/
def mimeRejectText (mt : String) : String :=
  "mimetype " ++ mt ++ " unsupported.\nCurrently supported:" ++
  String.intercalate ", " accepted_types

/-- `Axter.handle_commands` (main.py lines 263-294): the `match` on
`message['text']`.  There is no `/desktop` case. -/
def handle_commands (st : BotState) (sender : String) (text : String) : HRes :=
  match text with
  | "/start" => (st, [Effect.sendMessage sender "You\x27re already confirmed :3"], none)
  | "/ping" => (st, [Effect.sendMessage sender "Pong!"], none)
  | "/shutdown" =>
    if ¬ (sender = st.owner) then (st, [], none)
    else (st, [Effect.sendMessage sender "Shutting down...", Effect.save st, Effect.exit], none)
  | "/reset" =>
    if ¬ (sender = st.owner) then (st, [], none)
    else ({ st with users := [] }, [Effect.sendMessage sender "State reset"], none)
  | "/save" => (st, [Effect.save st, Effect.sendMessage sender "State saved"], none)
  | _ => (st, [], none)

/-- the shared tail of `handle_image` (lines 326-350) once a file has been
chosen: send the monitor keyboard, then store `file_id` in the sender's
record.  The send precedes the assignment, so on a KeyError the send has
already happened. -/
def finishImage (st : BotState) (sender : String) (fid : String) : HRes :=
  let es := [Effect.sendMarkup sender monitorPrompt (monitorKeyboard sender)]
  match updateUser st.users sender (fun r => { r with file_id := fid }) with
  | none => (st, es, some Err.keyError)
  | some users' => ({ st with users := users' }, es, none)

/-- `Axter.handle_image` (lines 296-350).  A photo takes the last size
(`message['photo'][-1]`, IndexError on an empty list); a document is
checked against `accepted_types`; the defensive `else` branch replies with
the "should not happen" message. -/
def handle_image (st : BotState) (sender : String) (content : MsgContent) : HRes :=
  match content with
  | MsgContent.photo sizes =>
    match sizes.getLast? with
    | none => (st, [], some Err.indexError)
    | some file => finishImage st sender file.file_id
  | MsgContent.document d =>
    if ¬ (d.mime_type ∈ accepted_types) then
      (st, [Effect.sendMessage sender (mimeRejectText d.mime_type)], none)
    else finishImage st sender d.file_id
  | _ =>
    (st, [Effect.sendMessage sender
      ("you somehow did something that should not happen. tell @" ++ st.owner)], none)

/-- `Axter.handle_message` (lines 162-259): known users pass the banned
check then dispatch on content; unknown senders are handled by the
owner-handshake and `/start` registration paths.  The owner path reads
`message['from']['username']` unguarded (KeyError when absent). -/
def handle_message (st : BotState) (m : Message) : HRes :=
  let sender := m.sender.id
  match lookupUser st.users sender with
  | some r =>
    if ¬ r.allowed then (st, [], none)
    else
      match m.content with
      | MsgContent.text t => handle_commands st sender t
      | MsgContent.photo _ => handle_image st sender m.content
      | MsgContent.document _ => handle_image st sender m.content
      | MsgContent.other => (st, [], none)
  | none =>
    match m.content with
    | MsgContent.text t =>
      if sender = st.owner then
        match m.sender.username with
        | none => (st, [], some Err.keyError)
        | some un =>
          let newRec : UserRecord := { username := un, file_id := "", allowed := true, state := none }
          ({ st with users := putUser st.users sender newRec },
           [Effect.sendMessage sender "Hello owner!\nAdded to allowed users.",
            Effect.setMyCommands st.owner ownerCommands], none)
      else if t = "/start" then
        match m.sender.username with
        | none =>
          (st, [Effect.sendMessage sender "Users without a username are unsupported."], none)
        | some un =>
          let newRec : UserRecord := { username := un, file_id := "", allowed := false, state := none }
          ({ st with users := putUser st.users sender newRec },
           [Effect.sendMessage sender "Hello new user!\nPlease wait until my owner confirms you.",
            Effect.sendMarkup st.owner (newUserText sender m.sender) (newUserKeyboard sender)],
           none)
      else (st, [], none)
    | _ => (st, [], none)

/-- the `new_user` branch of `Axter.handle_callback` (lines 361-396) after
`data.split(':')` has bound `action` and `user_id`.  `ban` and unknown
actions return without doing anything. -/
def handle_new_user_cb (st : BotState) (action user_id : String) (cbm : CbMessage) : HRes :=
  if action = "allow" then
    match updateUser st.users user_id (fun r => { r with allowed := true }) with
    | none => (st, [], some Err.keyError)
    | some users' =>
      match lookupUser users' user_id with
      | none => (st, [], some Err.keyError)
      | some r =>
        ({ st with users := users' },
         [Effect.sendMessage st.owner ("Confirmed @" ++ r.username ++ "!"),
          Effect.sendMessage user_id "You\x27ve been confirmed.",
          Effect.editMessageText cbm.chat_id cbm.message_id cbm.text,
          Effect.setMyCommands user_id confirmedCommands], none)
  else (st, [], none)

/-- the `desktop` branch of `Axter.handle_callback` (lines 397-417) after
`data.split(':')` has bound `monitor` and `user_id`: read `file_id` from
the user record (KeyError when absent; no emptiness check), `getFile`,
download, apply the wallpaper, set the record's `state` key to `''`, edit
the prompt, forward to the owner, notify the user. -/
def handle_desktop_cb (token : String) (gf : String → String) (st : BotState)
    (monitor user_id : String) (cbm : CbMessage) : HRes :=
  match lookupUser st.users user_id with
  | none => (st, [], some Err.keyError)
  | some r =>
    match updateUser st.users user_id (fun r0 => { r0 with state := some "" }) with
    | none => (st, [], some Err.keyError)
    | some users' =>
      ({ st with users := users' },
       [Effect.getFile r.file_id,
        Effect.download ("https://api.telegram.org/file/bot" ++ token ++ "/" ++ gf r.file_id)
          ("images/" ++ r.file_id),
        Effect.setDesktop ("images/" ++ r.file_id) monitor,
        Effect.editMessageText cbm.chat_id cbm.message_id cbm.text,
        Effect.sendPhoto st.owner ("images/" ++ r.file_id)
          ("New desktop set by @" ++ r.username),
        Effect.sendMessage user_id "Desktop set!"], none)

/-- `Axter.handle_callback` (lines 352-417): route on the payload
namespace; `data.split(':')` must yield exactly three parts
(ValueError otherwise). -/
def handle_callback (token : String) (gf : String → String) (st : BotState) (cb : Callback) : HRes :=
  if pyStartsWith cb.data "new_user" then
    match pySplit cb.data ':' with
    | [_ns, action, user_id] => handle_new_user_cb st action user_id cb.message
    | _ => (st, [], some Err.valueError)
  else if pyStartsWith cb.data "desktop" then
    match pySplit cb.data ':' with
    | [_ns, monitor, user_id] => handle_desktop_cb token gf st monitor user_id cb.message
    | _ => (st, [], some Err.valueError)
  else (st, [], none)

/-- dispatch of one update (lines 155-160): `'message' in message` /
`'callback_query' in message` / neither. -/
def dispatchUpdate (token : String) (gf : String → String) (st : BotState) (u : Update) : HRes :=
  match u.payload with
  | UpdatePayload.message m => handle_message st m
  | UpdatePayload.callbackQuery cb => handle_callback token gf st cb
  | UpdatePayload.other => (st, [], none)

/-- one iteration of the loop body (lines 149-160): advance the offset when
`update_id >= offset`, then dispatch unconditionally. -/
def stepUpdate (token : String) (gf : String → String) (st : BotState) (u : Update) : HRes :=
  let st1 := if u.update_id ≥ st.offset then { st with offset := u.update_id + 1 } else st
  dispatchUpdate token gf st1 u

/-- the `for message in messages` loop of `handle_updates`; an uncaught
exception aborts the remainder of the batch (it propagates out of the
Python loop). -/
def runBatch (token : String) (gf : String → String) (st : BotState) (es : List Effect) :
    List Update → HRes
  | [] => (st, es, none)
  | u :: rest =>
    match stepUpdate token gf st u with
    | (s', es', some e) => (s', es ++ es', some e)
    | (s', es', none) => runBatch token gf s' (es ++ es') rest

/-- `Axter.handle_updates` (lines 141-160): shutdown check, then
`getUpdates` with the current offset, then the dispatch loop over the
returned batch. -/
def handle_updates (token : String) (gf : String → String) (primed : Bool) (st : BotState)
    (batch : List Update) : HRes :=
  if primed then (st, [Effect.save st, Effect.exit], none)
  else runBatch token gf st [Effect.getUpdates st.offset] batch

/-- true exactly on the persistence effect, for stating where saves occur. -/
def isSaveEffect : Effect → Bool
  | Effect.save _ => true
  | _ => false

/-!
JSON model for the persistence round trip (claim C9).  `save()` dumps the
state dict with `json.dump` and `__main__` reads it back with `json.load`;
the repository's own contribution is the shape of the dict, so the round
trip is stated at the JSON-value level (the byte-level encoder/decoder is
the Python standard library, external to this repository).
-/

/-- a JSON value. -/
inductive Json where
  | str (s : String)
  | int (n : Int)
  | bool (b : Bool)
  | null
  | arr (xs : List Json)
  | obj (fields : List (String × Json))

/-- field lookup in a JSON object. -/
def jGet : List (String × Json) → String → Option Json
  | [], _ => none
  | (k, v) :: rest, k' => if k = k' then some v else jGet rest k'

/-- the JSON shape of one user record; the `state` key is present only when
the record carries it (it is added lazily by the desktop callback). -/
def encodeRecord (r : UserRecord) : Json :=
  Json.obj ([("username", Json.str r.username), ("file_id", Json.str r.file_id),
    ("allowed", Json.bool r.allowed)] ++
    (match r.state with
     | none => []
     | some s => [("state", Json.str s)]))

/-- read one user record back from its JSON shape. -/
def decodeRecord : Json → Option UserRecord
  | Json.obj fields =>
    (match jGet fields "username", jGet fields "file_id", jGet fields "allowed" with
     | some (Json.str u), some (Json.str f), some (Json.bool a) =>
       some { username := u, file_id := f, allowed := a,
              state := match jGet fields "state" with
                       | some (Json.str s) => some s
                       | _ => none }
     | _, _, _ => none)
  | _ => none

/-- read the whole users object back. -/
def decodeUsers : List (String × Json) → Option (List (String × UserRecord))
  | [] => some []
  | (k, j) :: rest =>
    match decodeRecord j, decodeUsers rest with
    | some r, some rs => some ((k, r) :: rs)
    | _, _ => none

/-- `Axter.save` (lines 419-426): `state['offset'] = self.offset` followed by
`json.dump(state, open('state.json', 'w'))`; this is the JSON value written. -/
def saveJson (st : BotState) : Json :=
  Json.obj [("owner", Json.str st.owner), ("offset", Json.int st.offset),
    ("users", Json.obj (st.users.map (fun p => (p.1, encodeRecord p.2))))]

/-- the `json.load(state_file)` read in `__main__` (lines 439-440), decoded
back into a `BotState`. -/
def loadJson : Json → Option BotState
  | Json.obj fields =>
    (match jGet fields "owner", jGet fields "offset", jGet fields "users" with
     | some (Json.str o), some (Json.int n), some (Json.obj us) =>
       (match decodeUsers us with
        | some users => some { owner := o, offset := n, users := users }
        | none => none)
     | _, _, _ => none)
  | _ => none

/-! Concrete inputs used by the witnesses and counterexamples. -/

/-- a `getFile` oracle: every file id resolves to the same server path. -/
def gfW : String → String := fun _ => "remote.png"

/-- an allowed user with no stored file. -/
def recBob : UserRecord := { username := "bob", file_id := "", allowed := true, state := none }

/-- a known user awaiting confirmation (`allowed == false`). -/
def recBanned : UserRecord := { username := "eve", file_id := "", allowed := false, state := none }

/-- an allowed user with an empty stored file reference. -/
def recEmpty : UserRecord := { username := "bob9", file_id := "", allowed := true, state := none }

/-- an allowed user with a stored (pending) file reference. -/
def recF : UserRecord := { username := "bob9", file_id := "F", allowed := true, state := none }

/-- the sender object of user 7. -/
def senderBob : FromUser := { id := "7", username := some "bob", first_name := none, last_name := none }

/-- bot state with offset 10 and allowed user 7. -/
def stC1 : BotState := { owner := "1", offset := 10, users := [("7", recBob)] }

/-- a stale update (id 3 while the offset is already 10) carrying a /ping. -/
def uC1 : Update :=
  { update_id := 3,
    payload := UpdatePayload.message { sender := senderBob, content := MsgContent.text "/ping" } }

/-- bot state holding only the unapproved user 8. -/
def stC3 : BotState := { owner := "1", offset := 0, users := [("8", recBanned)] }

/-- a /ping message from the unapproved user 8. -/
def mC3 : Message :=
  { sender := { id := "8", username := some "eve", first_name := none, last_name := none },
    content := MsgContent.text "/ping" }

/-- a /desktop text message from allowed user 7. -/
def mC4 : Message := { sender := senderBob, content := MsgContent.text "/desktop" }

/-- a two-size photo message from allowed user 7. -/
def mC5 : Message :=
  { sender := senderBob,
    content := MsgContent.photo [{ file_id := "PH1" }, { file_id := "PH2" }] }

/-- bot state holding allowed user 9 with an empty file reference. -/
def stC6 : BotState := { owner := "1", offset := 0, users := [("9", recEmpty)] }

/-- the monitor-selection callback for user 9, monitor 1. -/
def cbC6 : Callback :=
  { data := "desktop:1:9",
    message := { chat_id := "9", message_id := 77,
                 text := "Great!\nNow, which monitor should it apply to?" } }

/-- bot state holding allowed user 9 with pending file "F". -/
def stC7 : BotState := { owner := "1", offset := 0, users := [("9", recF)] }

/-- the monitor-selection callback for user 9 again (separate input for C7). -/
def cbC7 : Callback :=
  { data := "desktop:2:9",
    message := { chat_id := "9", message_id := 78,
                 text := "Great!\nNow, which monitor should it apply to?" } }

/-- bot state before the owner has ever messaged: empty user table. -/
def stO : BotState := { owner := "1", offset := 5, users := [] }

/-- the owner's first message (any text works, not just a command). -/
def mO : Message :=
  { sender := { id := "1", username := some "own", first_name := none, last_name := none },
    content := MsgContent.text "hi" }

/-- an accepted png document message from allowed user 7. -/
def mC10 : Message :=
  { sender := senderBob,
    content := MsgContent.document { file_id := "DOC1", mime_type := "image/png" } }

/-- a /save text message from allowed user 7. -/
def mSave : Message := { sender := senderBob, content := MsgContent.text "/save" }

/-! Helper lemmas about the user table and the handlers. -/

/-- a successful lookup guarantees a successful in-place update, and the
updated table returns the mutated record at that key. -/
theorem updateUser_of_lookup {users : List (String × UserRecord)} {k : String}
    {r : UserRecord} (f : UserRecord → UserRecord) (h : lookupUser users k = some r) :
    ∃ users', updateUser users k f = some users' ∧ lookupUser users' k = some (f r) := by
  induction users with
  | nil => simp [lookupUser] at h
  | cons p rest ih =>
    obtain ⟨k0, r0⟩ := p
    by_cases hk : k0 = k
    · subst hk
      simp [lookupUser] at h
      subst h
      exact ⟨(k0, f r0) :: rest, by simp [updateUser], by simp [lookupUser]⟩
    · simp only [lookupUser, if_neg hk] at h
      obtain ⟨users', hu, hl⟩ := ih h
      refine ⟨(k0, r0) :: users', ?_, ?_⟩
      · simp [updateUser, hk, hu]
      · simp [lookupUser, hk, hl]

/-- `handle_commands` never changes the polling offset. -/
theorem handle_commands_offset (st : BotState) (s t : String) :
    (handle_commands st s t).1.offset = st.offset := by
  unfold handle_commands
  split <;> first | rfl | (split <;> rfl)

/-- `finishImage` never changes the polling offset. -/
theorem finishImage_offset (st : BotState) (s fid : String) :
    (finishImage st s fid).1.offset = st.offset := by
  simp only [finishImage]
  split <;> rfl

/-- `handle_image` never changes the polling offset. -/
theorem handle_image_offset (st : BotState) (s : String) (c : MsgContent) :
    (handle_image st s c).1.offset = st.offset := by
  unfold handle_image
  split
  · split
    · rfl
    · exact finishImage_offset ..
  · split
    · rfl
    · exact finishImage_offset ..
  · rfl

/-- `handle_message` never changes the polling offset. -/
theorem handle_message_offset (st : BotState) (m : Message) :
    (handle_message st m).1.offset = st.offset := by
  simp only [handle_message]
  split
  · split
    · rfl
    · split
      · exact handle_commands_offset ..
      · exact handle_image_offset ..
      · exact handle_image_offset ..
      · rfl
  · split
    · split
      · split <;> rfl
      · split
        · split <;> rfl
        · rfl
    · rfl

/-- `handle_new_user_cb` never changes the polling offset. -/
theorem handle_new_user_cb_offset (st : BotState) (a uid : String) (cbm : CbMessage) :
    (handle_new_user_cb st a uid cbm).1.offset = st.offset := by
  unfold handle_new_user_cb
  split
  · split
    · rfl
    · split <;> rfl
  · rfl

/-- `handle_desktop_cb` never changes the polling offset. -/
theorem handle_desktop_cb_offset (token : String) (gf : String → String) (st : BotState)
    (monitor uid : String) (cbm : CbMessage) :
    (handle_desktop_cb token gf st monitor uid cbm).1.offset = st.offset := by
  unfold handle_desktop_cb
  split
  · rfl
  · split <;> rfl

/-- `handle_callback` never changes the polling offset. -/
theorem handle_callback_offset (token : String) (gf : String → String) (st : BotState)
    (cb : Callback) : (handle_callback token gf st cb).1.offset = st.offset := by
  unfold handle_callback
  split
  · split
    · exact handle_new_user_cb_offset ..
    · rfl
  · split
    · split
      · exact handle_desktop_cb_offset ..
      · rfl
    · rfl

/-- dispatching one update never changes the polling offset. -/
theorem dispatchUpdate_offset (token : String) (gf : String → String) (st : BotState)
    (u : Update) : (dispatchUpdate token gf st u).1.offset = st.offset := by
  unfold dispatchUpdate
  split
  · exact handle_message_offset ..
  · exact handle_callback_offset ..
  · rfl

/-- one loop iteration leaves the offset at `max offset (update_id + 1)`:
it rises exactly when `update_id ≥ offset`. -/
theorem stepUpdate_offset (token : String) (gf : String → String) (st : BotState)
    (u : Update) :
    (stepUpdate token gf st u).1.offset = max st.offset (u.update_id + 1) := by
  simp only [stepUpdate]
  rw [dispatchUpdate_offset]
  split <;> rename_i h <;> simp <;> omega

/-- the offset never decreases across a batch. -/
theorem runBatch_offset_mono (token : String) (gf : String → String) (batch : List Update) :
    ∀ (st : BotState) (es : List Effect),
      st.offset ≤ (runBatch token gf st es batch).1.offset := by
  induction batch with
  | nil => intro st es; simp [runBatch]
  | cons u rest ih =>
    intro st es
    simp only [runBatch]
    rcases hstep : stepUpdate token gf st u with ⟨s', es', e'⟩
    have hoff : s'.offset = max st.offset (u.update_id + 1) := by
      have h := stepUpdate_offset token gf st u
      rw [hstep] at h
      exact h
    cases e' with
    | some e => simp only []; omega
    | none =>
      have h2 := ih s' (es ++ es')
      simp only []
      omega

/-- unfolding one loop iteration when the dispatched update raised no
exception. -/
theorem runBatch_cons_none (token : String) (gf : String → String) (st : BotState)
    (es : List Effect) (u : Update) (rest : List Update) (s' : BotState) (es' : List Effect)
    (h : stepUpdate token gf st u = (s', es', none)) :
    runBatch token gf st es (u :: rest) = runBatch token gf s' (es ++ es') rest := by
  simp only [runBatch, h]

/-- unfolding one loop iteration when the dispatched update raised an
exception: the batch is aborted. -/
theorem runBatch_cons_some (token : String) (gf : String → String) (st : BotState)
    (es : List Effect) (u : Update) (rest : List Update) (s' : BotState) (es' : List Effect)
    (e : Err) (h : stepUpdate token gf st u = (s', es', some e)) :
    runBatch token gf st es (u :: rest) = (s', es ++ es', some e) := by
  simp only [runBatch, h]

/-- when a batch runs to completion, the final offset is the fold of
`max offset (update_id + 1)` over the batch in order. -/
theorem runBatch_offset_eq (token : String) (gf : String → String) (batch : List Update) :
    ∀ (st : BotState) (es : List Effect),
      (runBatch token gf st es batch).2.2 = none →
      (runBatch token gf st es batch).1.offset =
        batch.foldl (fun o u => max o (u.update_id + 1)) st.offset := by
  induction batch with
  | nil => intro st es _; simp [runBatch]
  | cons u rest ih =>
    intro st es hnone
    rcases hstep : stepUpdate token gf st u with ⟨s', es', e'⟩
    have hoff : s'.offset = max st.offset (u.update_id + 1) := by
      have h := stepUpdate_offset token gf st u
      rw [hstep] at h
      exact h
    cases e' with
    | some e =>
      rw [runBatch_cons_some token gf st es u rest s' es' e hstep] at hnone
      simp at hnone
    | none =>
      rw [runBatch_cons_none token gf st es u rest s' es' hstep] at hnone ⊢
      rw [ih s' (es ++ es') hnone]
      simp only [List.foldl]
      rw [hoff]

/-- there is no `/desktop` case in the command match: the text falls to the
default branch, which replies nothing and changes nothing. -/
theorem handle_commands_desktop (st : BotState) (s : String) :
    handle_commands st s "/desktop" = (st, [], none) := rfl

/-- the only command branches that emit a save effect are `/save` and
`/shutdown`. -/
theorem handle_commands_save (st : BotState) (s t : String)
    (h : ((handle_commands st s t).2.1.any isSaveEffect) = true) :
    t = "/save" ∨ t = "/shutdown" := by
  unfold handle_commands at h
  split at h
  · simp [isSaveEffect] at h
  · simp [isSaveEffect] at h
  · right; rfl
  · split at h <;> simp [isSaveEffect] at h
  · left; rfl
  · simp at h

/-- image handling never emits a save effect. -/
theorem handle_image_no_save (st : BotState) (s : String) (c : MsgContent) :
    ((handle_image st s c).2.1.any isSaveEffect) = false := by
  unfold handle_image finishImage
  split
  · split
    · rfl
    · split <;> rfl
  · split
    · rfl
    · split <;> rfl
  · rfl

/-- a user record survives the JSON round trip. -/
theorem decodeRecord_encodeRecord (r : UserRecord) :
    decodeRecord (encodeRecord r) = some r := by
  obtain ⟨u, f, a, s⟩ := r
  cases s <;> rfl

/-- the users table survives the JSON round trip. -/
theorem decodeUsers_encode (users : List (String × UserRecord)) :
    decodeUsers (users.map (fun p => (p.1, encodeRecord p.2))) = some users := by
  induction users with
  | nil => rfl
  | cons p rest ih =>
    simp only [List.map, decodeUsers, decodeRecord_encodeRecord, ih]

/-! Claim theorems. -/

/-- an update whose id is already at or above the offset for C2's witness. -/
def uC2w : Update := { update_id := 5, payload := UpdatePayload.other }

/-- a batch update carrying the /save message, for C8's witness. -/
def uSaveW : Update := { update_id := 11, payload := UpdatePayload.message mSave }

/-- Claim C1, counterexample: with the offset at 10, a replayed update with
id 3 carrying /ping from allowed user 7 is still dispatched by
handle_updates — the handler's "Pong!" reply appears in the trace, so an
update with id < offset does trigger dispatch. -/
theorem axter_c1_cex :
    uC1.update_id < stC1.offset ∧
    handle_updates "tok" gfW false stC1 [uC1] =
      (stC1, [Effect.getUpdates 10, Effect.sendMessage "7" "Pong!"], none) :=
  ⟨by decide, rfl⟩

/-- Claim C1, amended: handle_updates dispatches every update of the batch
regardless of its id; for an update with id < offset the loop iteration is
exactly the unconditional dispatch with the offset untouched (client-side
deduplication does not exist; it relies on the offset passed to
getUpdates). -/
theorem axter_c1_amended (token : String) (gf : String → String) (st : BotState)
    (u : Update) (h : u.update_id < st.offset) :
    stepUpdate token gf st u = dispatchUpdate token gf st u := by
  simp only [stepUpdate]
  rw [if_neg (by omega)]

/-- Claim C1, witness for the amended theorem at the concrete stale update. -/
theorem axter_c1_amended_witness :
    stepUpdate "tok" gfW stC1 uC1 = dispatchUpdate "tok" gfW stC1 uC1 :=
  axter_c1_amended "tok" gfW stC1 uC1 (by decide)

/-- Claim C2 (confirmed): the offset is monotonically non-decreasing across
handle_updates; when a batch completes, the final offset is the fold of
`max offset (id + 1)` over the batch (so it is the highest id seen plus
one whenever any update reaches the offset); and every loop iteration on
an update with id >= offset dispatches it in a state whose offset has
already been set to id + 1. -/
theorem axter_c2 (token : String) (gf : String → String) (st : BotState)
    (batch : List Update) :
    st.offset ≤ (handle_updates token gf false st batch).1.offset ∧
    ((handle_updates token gf false st batch).2.2 = none →
      (handle_updates token gf false st batch).1.offset =
        batch.foldl (fun o u => max o (u.update_id + 1)) st.offset) ∧
    (∀ (s : BotState) (u : Update), u.update_id ≥ s.offset →
      stepUpdate token gf s u =
        dispatchUpdate token gf { s with offset := u.update_id + 1 } u) := by
  refine ⟨?_, ?_, ?_⟩
  · exact runBatch_offset_mono token gf batch st [Effect.getUpdates st.offset]
  · exact runBatch_offset_eq token gf batch st [Effect.getUpdates st.offset]
  · intro s u h
    simp only [stepUpdate]
    rw [if_pos h]

/-- Claim C2, witness: the three conjuncts instantiated at concrete inputs,
with both hypotheses discharged there. -/
theorem axter_c2_witness :
    stC1.offset ≤ (handle_updates "tok" gfW false stC1 [uC1]).1.offset ∧
    (handle_updates "tok" gfW false stC1 [uC1]).1.offset =
      [uC1].foldl (fun o u => max o (u.update_id + 1)) stC1.offset ∧
    stepUpdate "tok" gfW stC7 uC2w =
      dispatchUpdate "tok" gfW { stC7 with offset := uC2w.update_id + 1 } uC2w := by
  obtain ⟨h1, h2, h3⟩ := axter_c2 "tok" gfW stC1 [uC1]
  exact ⟨h1, h2 rfl, h3 stC7 uC2w (by decide)⟩

/-- Claim C3 (confirmed): a message from a known sender whose record has
allowed == false produces no reply, no state change and no error — the
early return fires before handle_commands / handle_image. -/
theorem axter_c3 (st : BotState) (m : Message) (r : UserRecord)
    (hfind : lookupUser st.users m.sender.id = some r) (hban : r.allowed = false) :
    handle_message st m = (st, [], none) := by
  simp only [handle_message]
  rw [hfind]
  simp [hban]

/-- Claim C3, witness: the unapproved user 8's /ping is dropped silently. -/
theorem axter_c3_witness : handle_message stC3 mC3 = (stC3, [], none) :=
  axter_c3 stC3 mC3 recBanned rfl rfl

/-- Claim C4 (code bug): an allowed user's /desktop text does nothing —
the command match has no /desktop case, so handle_message returns with no
reply, no state change and no error, although the code itself registers a
/desktop command ("sets desktop background") for confirmed users. -/
theorem axter_c4 (st : BotState) (m : Message) (r : UserRecord)
    (hfind : lookupUser st.users m.sender.id = some r) (hallow : r.allowed = true)
    (htext : m.content = MsgContent.text "/desktop") :
    handle_message st m = (st, [], none) := by
  simp only [handle_message]
  rw [hfind, htext]
  simp [hallow, handle_commands_desktop]

/-- Claim C4, witness: allowed user 7 sends /desktop and nothing happens. -/
theorem axter_c4_witness : handle_message stC1 mC4 = (stC1, [], none) :=
  axter_c4 stC1 mC4 recBob rfl rfl rfl

/-- once a file has been chosen for a known sender, the monitor keyboard is
sent and the sender's record gets exactly `file_id := fid`. -/
theorem finishImage_of_lookup (st : BotState) (sender fid : String) (r : UserRecord)
    (hfind : lookupUser st.users sender = some r) :
    (finishImage st sender fid).2 =
      ([Effect.sendMarkup sender monitorPrompt (monitorKeyboard sender)], none) ∧
    lookupUser (finishImage st sender fid).1.users sender =
      some { username := r.username, file_id := fid, allowed := r.allowed,
             state := r.state } := by
  obtain ⟨users', hu, hl⟩ :=
    updateUser_of_lookup (fun r0 => { r0 with file_id := fid }) hfind
  simp only [finishImage]
  rw [hu]
  exact ⟨rfl, hl⟩

/-- a nonempty photo list goes straight to the accept path with the last
size; no field of the user record is consulted first. -/
theorem handle_image_photo (st : BotState) (sender : String) (sizes : List PhotoSize)
    (f : PhotoSize) (hlast : sizes.getLast? = some f) :
    handle_image st sender (MsgContent.photo sizes) = finishImage st sender f.file_id := by
  simp only [handle_image]
  rw [hlast]

/-- a document with an accepted mime type goes straight to the accept path;
no field of the user record is consulted first. -/
theorem handle_image_document (st : BotState) (sender : String) (d : Document)
    (hmime : d.mime_type ∈ accepted_types) :
    handle_image st sender (MsgContent.document d) = finishImage st sender d.file_id := by
  simp only [handle_image]
  rw [if_neg (not_not_intro hmime)]

/-- Claim C5, counterexample: allowed user 7 sends a photo via the lossy
photo transport; instead of a rejection asking to resend uncompressed, the
bot sends the monitor keyboard and stores the last photo size's file id —
the upload flow advances. -/
theorem axter_c5_cex :
    handle_message stC1 mC5 =
      ({ stC1 with users := [("7", { recBob with file_id := "PH2" })] },
       [Effect.sendMarkup "7" monitorPrompt (monitorKeyboard "7")], none) := rfl

/-- Claim C5, amended: a photo payload is accepted exactly like an accepted
document — the last (largest) photo size's file reference is stored in the
sender's record and the monitor-selection keyboard is sent; there is no
rejection of the lossy transport. -/
theorem axter_c5_amended (st : BotState) (sender : String) (sizes : List PhotoSize)
    (f : PhotoSize) (r : UserRecord) (hfind : lookupUser st.users sender = some r)
    (hlast : sizes.getLast? = some f) :
    (handle_image st sender (MsgContent.photo sizes)).2 =
      ([Effect.sendMarkup sender monitorPrompt (monitorKeyboard sender)], none) ∧
    lookupUser (handle_image st sender (MsgContent.photo sizes)).1.users sender =
      some { username := r.username, file_id := f.file_id, allowed := r.allowed,
             state := r.state } := by
  rw [handle_image_photo st sender sizes f hlast]
  exact finishImage_of_lookup st sender f.file_id r hfind

/-- Claim C5, witness for the amended theorem: user 7's two-size photo. -/
theorem axter_c5_amended_witness :
    (handle_image stC1 "7" (MsgContent.photo [{ file_id := "PH1" }, { file_id := "PH2" }])).2 =
      ([Effect.sendMarkup "7" monitorPrompt (monitorKeyboard "7")], none) ∧
    lookupUser
      (handle_image stC1 "7"
        (MsgContent.photo [{ file_id := "PH1" }, { file_id := "PH2" }])).1.users "7" =
      some { username := recBob.username, file_id := "PH2", allowed := recBob.allowed,
             state := recBob.state } :=
  axter_c5_amended stC1 "7" [{ file_id := "PH1" }, { file_id := "PH2" }]
    { file_id := "PH2" } recBob rfl rfl

/-- Claim C6, counterexample: user 9 is registered but has no pending file
(`file_id == ''`); the desktop callback does not fail with any
MissingFile-style error — it calls getFile with the empty reference and
proceeds all the way to the Desktop Applier (`set_desktop`). -/
theorem axter_c6_cex :
    lookupUser stC6.users "9" = some recEmpty ∧ recEmpty.file_id = "" ∧
    handle_callback "tok" gfW stC6 cbC6 =
      ({ stC6 with users := [("9", { recEmpty with state := some "" })] },
       [Effect.getFile "",
        Effect.download "https://api.telegram.org/file/bottok/remote.png" "images/",
        Effect.setDesktop "images/" "1",
        Effect.editMessageText "9" 77 "Great!\nNow, which monitor should it apply to?",
        Effect.sendPhoto "1" "images/" "New desktop set by @bob9",
        Effect.sendMessage "9" "Desktop set!"], none) :=
  ⟨rfl, rfl, rfl⟩

/-- Claim C6, amended: the desktop callback performs no pending-file check.
If uid has no user record at all, the bare dict lookup raises a KeyError
(not a handled MissingFile failure); if a record exists — even with an
empty file reference — the router proceeds without error and invokes the
Desktop Applier. -/
theorem axter_c6_amended (token : String) (gf : String → String) (st : BotState)
    (monitor user_id : String) (cbm : CbMessage) :
    (lookupUser st.users user_id = none →
      handle_desktop_cb token gf st monitor user_id cbm = (st, [], some Err.keyError)) ∧
    (∀ (r : UserRecord), lookupUser st.users user_id = some r →
      (handle_desktop_cb token gf st monitor user_id cbm).2.2 = none ∧
      Effect.setDesktop ("images/" ++ r.file_id) monitor ∈
        (handle_desktop_cb token gf st monitor user_id cbm).2.1) := by
  constructor
  · intro h
    simp only [handle_desktop_cb]
    rw [h]
  · intro r h
    obtain ⟨users', hu, _⟩ :=
      updateUser_of_lookup (fun r0 => { r0 with state := some "" }) h
    simp only [handle_desktop_cb]
    rw [h, hu]
    exact ⟨rfl, by simp⟩

/-- Claim C6, witness for the amended theorem: unknown uid 77 raises a
KeyError; registered uid 9 with an empty file reference reaches the
Desktop Applier. -/
theorem axter_c6_amended_witness :
    handle_desktop_cb "tok" gfW stC6 "1" "77" cbC6.message = (stC6, [], some Err.keyError) ∧
    ((handle_desktop_cb "tok" gfW stC6 "1" "9" cbC6.message).2.2 = none ∧
      Effect.setDesktop ("images/" ++ recEmpty.file_id) "1" ∈
        (handle_desktop_cb "tok" gfW stC6 "1" "9" cbC6.message).2.1) :=
  ⟨(axter_c6_amended "tok" gfW stC6 "1" "77" cbC6.message).1 rfl,
   (axter_c6_amended "tok" gfW stC6 "1" "9" cbC6.message).2 recEmpty rfl⟩

/-- Claim C7, counterexample: after user 9's desktop callback completes
successfully (no error), the stored file reference is still "F" — it is
not cleared; only the `state` key is set to the empty string. -/
theorem axter_c7_cex :
    (handle_callback "tok" gfW stC7 cbC7).2.2 = none ∧
    lookupUser (handle_callback "tok" gfW stC7 cbC7).1.users "9" =
      some { username := "bob9", file_id := "F", allowed := true, state := some "" } :=
  ⟨rfl, rfl⟩

/-- Claim C7, amended: after a successful desktop callback the user's
`state` key is set to the empty string (the idle marker), but the stored
file reference is left in place — `file_id` keeps the applied file. -/
theorem axter_c7_amended (token : String) (gf : String → String) (st : BotState)
    (monitor user_id : String) (cbm : CbMessage) (r : UserRecord)
    (h : lookupUser st.users user_id = some r) :
    (handle_desktop_cb token gf st monitor user_id cbm).2.2 = none ∧
    lookupUser (handle_desktop_cb token gf st monitor user_id cbm).1.users user_id =
      some { username := r.username, file_id := r.file_id, allowed := r.allowed,
             state := some "" } := by
  obtain ⟨users', hu, hl⟩ :=
    updateUser_of_lookup (fun r0 => { r0 with state := some "" }) h
  simp only [handle_desktop_cb]
  rw [h, hu]
  exact ⟨rfl, hl⟩

/-- Claim C7, witness for the amended theorem: user 9 keeps file "F". -/
theorem axter_c7_amended_witness :
    (handle_desktop_cb "tok" gfW stC7 "2" "9" cbC7.message).2.2 = none ∧
    lookupUser (handle_desktop_cb "tok" gfW stC7 "2" "9" cbC7.message).1.users "9" =
      some { username := recF.username, file_id := recF.file_id, allowed := recF.allowed,
             state := some "" } :=
  axter_c7_amended "tok" gfW stC7 "2" "9" cbC7.message recF rfl

/-- Claim C8, counterexample: the owner's first message mutates durable
state (a user record is created) and the very next things the bot does are
network calls (the welcome reply and the setMyCommands registration), with
no save effect anywhere in the trace. -/
theorem axter_c8_cex :
    (handle_message stO mO).1.users ≠ stO.users ∧
    (handle_message stO mO).2.1 =
      [Effect.sendMessage "1" "Hello owner!\nAdded to allowed users.",
       Effect.setMyCommands "1" ownerCommands] ∧
    ((handle_message stO mO).2.1.any isSaveEffect) = false := by
  refine ⟨by decide, rfl, rfl⟩

/-- message handling emits a save effect only for the explicit /save
command and for the owner's /shutdown (which saves inside shutdown()). -/
theorem handle_message_save (st : BotState) (m : Message)
    (h : ((handle_message st m).2.1.any isSaveEffect) = true) :
    m.content = MsgContent.text "/save" ∨ m.content = MsgContent.text "/shutdown" := by
  obtain ⟨sdr, content⟩ := m
  cases content with
  | text t =>
    simp only [handle_message] at h
    split at h
    · split at h
      · simp [isSaveEffect] at h
      · rcases handle_commands_save st sdr.id t h with h1 | h1
        · left; rw [h1]
        · right; rw [h1]
    · split at h
      · split at h <;> simp [isSaveEffect] at h
      · split at h
        · split at h <;> simp [isSaveEffect] at h
        · simp [isSaveEffect] at h
  | photo sizes =>
    simp only [handle_message] at h
    split at h
    · split at h
      · simp [isSaveEffect] at h
      · rw [handle_image_no_save] at h
        exact absurd h (by simp)
    · simp [isSaveEffect] at h
  | document d =>
    simp only [handle_message] at h
    split at h
    · split at h
      · simp [isSaveEffect] at h
      · rw [handle_image_no_save] at h
        exact absurd h (by simp)
    · simp [isSaveEffect] at h
  | other =>
    simp only [handle_message] at h
    split at h
    · split at h <;> simp [isSaveEffect] at h
    · simp [isSaveEffect] at h

/-- the callback router never emits a save effect in its new_user branch,
even though the allow action mutates the allowed flag and then performs
four network calls. -/
theorem handle_new_user_cb_no_save (st : BotState) (a uid : String) (cbm : CbMessage) :
    ((handle_new_user_cb st a uid cbm).2.1.any isSaveEffect) = false := by
  unfold handle_new_user_cb
  split
  · split
    · rfl
    · split <;> rfl
  · rfl

/-- the callback router never emits a save effect in its desktop branch,
even though it stores the state key and then performs network calls. -/
theorem handle_desktop_cb_no_save (token : String) (gf : String → String) (st : BotState)
    (monitor uid : String) (cbm : CbMessage) :
    ((handle_desktop_cb token gf st monitor uid cbm).2.1.any isSaveEffect) = false := by
  unfold handle_desktop_cb
  split
  · rfl
  · split <;> rfl

/-- the callback router as a whole never emits a save effect. -/
theorem handle_callback_no_save (token : String) (gf : String → String) (st : BotState)
    (cb : Callback) :
    ((handle_callback token gf st cb).2.1.any isSaveEffect) = false := by
  unfold handle_callback
  split
  · split
    · exact handle_new_user_cb_no_save ..
    · rfl
  · split
    · split
      · exact handle_desktop_cb_no_save ..
      · rfl
    · rfl

/-- a save effect in the trace of a dispatched update can only come from a
message update whose text is /save or /shutdown. -/
theorem dispatchUpdate_save (token : String) (gf : String → String) (st : BotState)
    (u : Update) (h : ((dispatchUpdate token gf st u).2.1.any isSaveEffect) = true) :
    ∃ mu, u.payload = UpdatePayload.message mu ∧
      (mu.content = MsgContent.text "/save" ∨ mu.content = MsgContent.text "/shutdown") := by
  rcases hp : u.payload with m | cb | _
  · simp only [dispatchUpdate, hp] at h
    exact ⟨m, rfl, handle_message_save st m h⟩
  · simp only [dispatchUpdate, hp] at h
    rw [handle_callback_no_save] at h
    exact absurd h (by simp)
  · simp only [dispatchUpdate, hp] at h
    simp [isSaveEffect] at h

/-- the offset advance of a loop iteration adds no effect: a save in a
step's trace still needs a /save or /shutdown message. -/
theorem stepUpdate_save (token : String) (gf : String → String) (st : BotState)
    (u : Update) (h : ((stepUpdate token gf st u).2.1.any isSaveEffect) = true) :
    ∃ mu, u.payload = UpdatePayload.message mu ∧
      (mu.content = MsgContent.text "/save" ∨ mu.content = MsgContent.text "/shutdown") := by
  simp only [stepUpdate] at h
  exact dispatchUpdate_save token gf _ u h

/-- a save effect in a batch run's trace comes from the carried-in effects
or from some update of the batch that is a /save or /shutdown message. -/
theorem runBatch_save (token : String) (gf : String → String) (batch : List Update) :
    ∀ (st : BotState) (es : List Effect),
      ((runBatch token gf st es batch).2.1.any isSaveEffect) = true →
      (es.any isSaveEffect) = true ∨
      ∃ u ∈ batch, ∃ mu, u.payload = UpdatePayload.message mu ∧
        (mu.content = MsgContent.text "/save" ∨ mu.content = MsgContent.text "/shutdown") := by
  induction batch with
  | nil =>
    intro st es h
    simp only [runBatch] at h
    exact Or.inl h
  | cons u rest ih =>
    intro st es h
    rcases hstep : stepUpdate token gf st u with ⟨s', es', e'⟩
    have hsave : (es'.any isSaveEffect) = true →
        ∃ mu, u.payload = UpdatePayload.message mu ∧
          (mu.content = MsgContent.text "/save" ∨ mu.content = MsgContent.text "/shutdown") := by
      intro hx
      refine stepUpdate_save token gf st u ?_
      rw [hstep]
      exact hx
    cases e' with
    | some e =>
      rw [runBatch_cons_some token gf st es u rest s' es' e hstep] at h
      replace h : ((es ++ es').any isSaveEffect) = true := h
      rw [List.any_append] at h
      rcases (Bool.or_eq_true _ _).mp h with h | h
      · exact Or.inl h
      · exact Or.inr ⟨u, List.mem_cons_self u rest, hsave h⟩
    | none =>
      rw [runBatch_cons_none token gf st es u rest s' es' hstep] at h
      rcases ih s' (es ++ es') h with h | ⟨v, hv, hm⟩
      · rw [List.any_append] at h
        rcases (Bool.or_eq_true _ _).mp h with h | h
        · exact Or.inl h
        · exact Or.inr ⟨u, List.mem_cons_self u rest, hsave h⟩
      · exact Or.inr ⟨v, List.mem_cons_of_mem u hv, hm⟩

/-- Claim C8, amended: across the whole program a save effect is emitted
only by the explicit /save command and by the owner's /shutdown (which
saves inside shutdown()): message handling saves only for those two texts;
the callback router (including the allowed-flag change and the desktop
apply) never saves; and a save anywhere in a polling cycle's trace —
which includes every offset advance — can only come from a dispatched
/save or /shutdown message. No other mutation is followed by a save. -/
theorem axter_c8_amended (token : String) (gf : String → String) (st : BotState)
    (m : Message) (cb : Callback) (batch : List Update) :
    (((handle_message st m).2.1.any isSaveEffect) = true →
      m.content = MsgContent.text "/save" ∨ m.content = MsgContent.text "/shutdown") ∧
    ((handle_callback token gf st cb).2.1.any isSaveEffect) = false ∧
    (((handle_updates token gf false st batch).2.1.any isSaveEffect) = true →
      ∃ u ∈ batch, ∃ mu, u.payload = UpdatePayload.message mu ∧
        (mu.content = MsgContent.text "/save" ∨ mu.content = MsgContent.text "/shutdown")) := by
  refine ⟨handle_message_save st m, handle_callback_no_save token gf st cb, ?_⟩
  intro h
  replace h :
      ((runBatch token gf st [Effect.getUpdates st.offset] batch).2.1.any isSaveEffect) = true := h
  rcases runBatch_save token gf batch st [Effect.getUpdates st.offset] h with h | h
  · simp [isSaveEffect] at h
  · exact h

/-- Claim C8, witness for the amended theorem: the /save message from
allowed user 7, a desktop callback, and a one-update batch carrying the
/save message; both hypotheses are discharged concretely. -/
theorem axter_c8_amended_witness :
    (mSave.content = MsgContent.text "/save" ∨ mSave.content = MsgContent.text "/shutdown") ∧
    ((handle_callback "tok" gfW stC1 cbC6).2.1.any isSaveEffect) = false ∧
    (∃ u ∈ [uSaveW], ∃ mu, u.payload = UpdatePayload.message mu ∧
      (mu.content = MsgContent.text "/save" ∨ mu.content = MsgContent.text "/shutdown")) :=
  ⟨(axter_c8_amended "tok" gfW stC1 mSave cbC6 [uSaveW]).1 (by decide),
   (axter_c8_amended "tok" gfW stC1 mSave cbC6 [uSaveW]).2.1,
   (axter_c8_amended "tok" gfW stC1 mSave cbC6 [uSaveW]).2.2 (by decide)⟩

/-- Claim C9 (confirmed): saving any bot state and loading the result back
reproduces the state exactly — owner, offset, and the full users table. -/
theorem axter_c9 (st : BotState) : loadJson (saveJson st) = some st := by
  obtain ⟨o, n, users⟩ := st
  have h := decodeUsers_encode users
  calc loadJson (saveJson ⟨o, n, users⟩)
      = (match decodeUsers (users.map (fun p => (p.1, encodeRecord p.2))) with
         | some us => some { owner := o, offset := n, users := us }
         | none => none) := rfl
    _ = some { owner := o, offset := n, users := users } := by rw [h]

/-- Claim C10 (confirmed): for an allowed sender, a photo (any nonempty
size list) or a document with an accepted mime type always stores the file
reference and sends the monitor keyboard — the user record `r` is
universally quantified, so no conversation-state field and no prior
/desktop command is consulted. -/
theorem axter_c10 (st : BotState) (m : Message) (r : UserRecord)
    (hfind : lookupUser st.users m.sender.id = some r) (hallow : r.allowed = true) :
    (∀ (sizes : List PhotoSize) (f : PhotoSize), m.content = MsgContent.photo sizes →
      sizes.getLast? = some f →
      (handle_message st m).2 =
        ([Effect.sendMarkup m.sender.id monitorPrompt (monitorKeyboard m.sender.id)], none) ∧
      lookupUser (handle_message st m).1.users m.sender.id =
        some { username := r.username, file_id := f.file_id, allowed := r.allowed,
               state := r.state }) ∧
    (∀ (d : Document), m.content = MsgContent.document d →
      d.mime_type ∈ accepted_types →
      (handle_message st m).2 =
        ([Effect.sendMarkup m.sender.id monitorPrompt (monitorKeyboard m.sender.id)], none) ∧
      lookupUser (handle_message st m).1.users m.sender.id =
        some { username := r.username, file_id := d.file_id, allowed := r.allowed,
               state := r.state }) := by
  constructor
  · intro sizes f hc hlast
    have h1 : handle_message st m = handle_image st m.sender.id (MsgContent.photo sizes) := by
      simp only [handle_message]
      rw [hfind, hc]
      simp [hallow]
    rw [h1, handle_image_photo st m.sender.id sizes f hlast]
    exact finishImage_of_lookup st m.sender.id f.file_id r hfind
  · intro d hc hmime
    have h1 : handle_message st m = handle_image st m.sender.id (MsgContent.document d) := by
      simp only [handle_message]
      rw [hfind, hc]
      simp [hallow]
    rw [h1, handle_image_document st m.sender.id d hmime]
    exact finishImage_of_lookup st m.sender.id d.file_id r hfind

/-- Claim C10, witness: allowed user 7's png document is stored with no
state precondition. -/
theorem axter_c10_witness :
    (handle_message stC1 mC10).2 =
      ([Effect.sendMarkup mC10.sender.id monitorPrompt (monitorKeyboard mC10.sender.id)], none) ∧
    lookupUser (handle_message stC1 mC10).1.users mC10.sender.id =
      some { username := recBob.username, file_id := "DOC1", allowed := recBob.allowed,
             state := recBob.state } :=
  (axter_c10 stC1 mC10 recBob rfl rfl).2 { file_id := "DOC1", mime_type := "image/png" }
    rfl (by decide)
